import Mathlib

/-!
Verification of `src/liballoc/heap.rs`: the pluggable low-level allocation
layer (public façade, backend strategies, alignment policy, zero-size
sentinel, out-of-memory escape hatch).

Machine integers (`uint`, `size_t`) are modelled as `Nat`; addresses are
`Nat` with `0` playing the role of the null pointer.  Backend state is an
abstract type `σ` threaded explicitly; `unsafe` Rust side effects become
explicit state passing.
-/

/-- An arbitrary non-null address to represent zero-size allocations
(heap.rs line 92: `pub const EMPTY: *mut () = 0x1 as *mut ();`). -/
def EMPTY : Nat := 1

/-- The five core backend operations (the `imp` module interface that every
backend variant implements, heap.rs §`mod imp`).  `σ` is the backend's
internal allocator state; address results use `0` for null. -/
structure Backend (σ : Type) where
  allocate : Nat → Nat → σ → Nat × σ
  reallocate : Nat → Nat → Nat → Nat → σ → Nat × σ
  reallocate_inplace : Nat → Nat → Nat → Nat → σ → Nat × σ
  deallocate : Nat → Nat → Nat → σ → σ
  usable_size : Nat → Nat → Nat

/-- Façade `allocate` (heap.rs lines 23-25): forwards to `imp::allocate`. -/
def allocate {σ : Type} (b : Backend σ) (size align : Nat) (s : σ) : Nat × σ :=
  b.allocate size align s

/-- Façade `reallocate` (heap.rs lines 39-41): forwards to `imp::reallocate`. -/
def reallocate {σ : Type} (b : Backend σ) (ptr old_size size align : Nat) (s : σ) : Nat × σ :=
  b.reallocate ptr old_size size align s

/-- Façade `reallocate_inplace` (heap.rs lines 56-58). -/
def reallocate_inplace {σ : Type} (b : Backend σ) (ptr old_size size align : Nat) (s : σ) :
    Nat × σ :=
  b.reallocate_inplace ptr old_size size align s

/-- Façade `deallocate` (heap.rs lines 68-70): forwards to `imp::deallocate`
unconditionally (no check of any kind on `ptr`). -/
def deallocate {σ : Type} (b : Backend σ) (ptr old_size align : Nat) (s : σ) : σ :=
  b.deallocate ptr old_size align s

/-- Façade `usable_size` (heap.rs lines 75-77). -/
def usable_size {σ : Type} (b : Backend σ) (size align : Nat) : Nat :=
  b.usable_size size align

/-- `exchange_malloc` (heap.rs lines 98-106), the exclusive-ownership
fast-allocation entry point.  `::oom()` is the injected out-of-memory
handler, an external collaborator that never returns; its invocation is
modelled by the result `none`.  A `some` result is the returned address. -/
def exchange_malloc {σ : Type} (b : Backend σ) (size align : Nat) (s : σ) : Option Nat × σ :=
  if size = 0 then
    (some EMPTY, s)
  else
    let p := allocate b size align s
    if p.1 = 0 then (none, p.2) else (some p.1, p.2)

/-- `exchange_free` (heap.rs lines 111-113): calls `deallocate` on its
arguments, unconditionally. -/
def exchange_free {σ : Type} (b : Backend σ) (ptr old_size align : Nat) (s : σ) : σ :=
  deallocate b ptr old_size align s

/-- `MIN_ALIGN` for the arm/mips/mipsel configurations (heap.rs line 121). -/
def MIN_ALIGN_arm : Nat := 8

/-- `MIN_ALIGN` for the x86/x86_64 configurations (heap.rs line 124). -/
def MIN_ALIGN_x86 : Nat := 16

/-! ### The `external_funcs` backend (heap.rs lines 126-169) -/

/-- The caller-supplied functions declared by the block at heap.rs
lines 128-136 (`rust_allocate`, `rust_deallocate`, `rust_reallocate`,
`rust_reallocate_inplace`, `rust_usable_size`). -/
structure RustFns (σ : Type) where
  rust_allocate : Nat → Nat → σ → Nat × σ
  rust_deallocate : Nat → Nat → Nat → σ → σ
  rust_reallocate : Nat → Nat → Nat → Nat → σ → Nat × σ
  rust_reallocate_inplace : Nat → Nat → Nat → Nat → σ → Nat × σ
  rust_usable_size : Nat → Nat → Nat

/-- `external_funcs` `imp::allocate` (heap.rs lines 138-141). -/
def extfuncs_allocate {σ : Type} (e : RustFns σ) (size align : Nat) (s : σ) : Nat × σ :=
  e.rust_allocate size align s

/-- `external_funcs` `imp::reallocate_inplace` (heap.rs lines 143-147 and,
defined a second time verbatim, lines 154-158). -/
def extfuncs_reallocate_inplace {σ : Type} (e : RustFns σ) (ptr old_size size align : Nat)
    (s : σ) : Nat × σ :=
  e.rust_reallocate_inplace ptr old_size size align s

/-- `external_funcs` `imp::deallocate` (heap.rs lines 149-152). -/
def extfuncs_deallocate {σ : Type} (e : RustFns σ) (ptr old_size align : Nat) (s : σ) : σ :=
  e.rust_deallocate ptr old_size align s

/-- `external_funcs` `imp::usable_size` (heap.rs lines 160-163). -/
def extfuncs_usable_size {σ : Type} (e : RustFns σ) (size align : Nat) : Nat :=
  e.rust_usable_size size align

/-- Names of the five core backend operations. -/
inductive OpName where
  | allocate
  | reallocate
  | reallocate_inplace
  | deallocate
  | usable_size
deriving DecidableEq

/-- The `fn` items of the `external_funcs` `mod imp` (heap.rs lines
138-168), in source order, excluding `stats_print`.  Transcribed from the
source: `allocate` (line 139), `reallocate_inplace` (line 144),
`deallocate` (line 150), `reallocate_inplace` again (line 155),
`usable_size` (line 161).  There is no `fn reallocate` in the module. -/
def extfuncsItems : List OpName :=
  [OpName.allocate, OpName.reallocate_inplace, OpName.deallocate,
   OpName.reallocate_inplace, OpName.usable_size]

/-! ### Alignment policy of the jemalloc backend (heap.rs lines 208-215) -/

/-- Count of trailing zero bits, with `fuel` bounding the recursion depth
(the bit width of the integer type). -/
def trailingZerosAux : Nat → Nat → Nat
  | 0, _ => 0
  | fuel + 1, n => if n % 2 = 1 then 0 else trailingZerosAux fuel (n / 2) + 1

/-- `uint::trailing_zeros` for the 64-bit `uint` used at heap.rs line 210. -/
def trailing_zeros (n : Nat) : Nat := trailingZerosAux 64 n

/-- `mallocx_align` (heap.rs line 210): the `MALLOCX_ALIGN(a)` macro,
`a.trailing_zeros()`. -/
def mallocx_align (a : Nat) : Nat := trailing_zeros a

/-- `align_to_flags` (heap.rs lines 212-215), with the compile-time
constant `MIN_ALIGN` passed explicitly as `min_align` to cover both
architecture configurations. -/
def align_to_flags (min_align align : Nat) : Nat :=
  if align ≤ min_align then 0 else mallocx_align align

/-! ### The unix direct-platform backend (heap.rs lines 255-314)

The platform allocator (`libc::malloc` / `posix_memalign` /
`libc::realloc` / `libc::free` and `ptr::copy_memory`) is an external
collaborator; it is modelled by a small operational heap: a list of live
blocks (base address and byte contents), a flag simulating resource
exhaustion, and a flag recording undefined behavior (writing through an
address belonging to no live block, or freeing an address that is not a
live block's base). -/

/-- A live allocation: base address and contents, one `Nat` per byte. -/
structure Block where
  base : Nat
  data : List Nat
deriving DecidableEq

/-- State of the modelled platform allocator. -/
structure Mem where
  blocks : List Block
  exhausted : Bool
  ub : Bool
deriving DecidableEq

/-- One past the last address of a block. -/
def blockEnd (b : Block) : Nat := b.base + b.data.length

/-- A fresh base address: a nonzero multiple of `align` past every live
block. -/
def freshBase (m : Mem) (align : Nat) : Nat :=
  let top := m.blocks.foldr (fun b acc => max acc (blockEnd b)) 1
  align * (top / align + 1)

/-- Model of `libc::malloc`: null on exhaustion, else a fresh block
aligned to the platform's natural alignment `ma`. -/
def libc_malloc (ma : Nat) (m : Mem) (size : Nat) : Nat × Mem :=
  if m.exhausted then (0, m)
  else
    let p := freshBase m ma
    (p, { m with blocks := m.blocks ++ [⟨p, List.replicate size 0⟩] })

/-- Model of `posix_memalign` (declared at heap.rs lines 262-266):
returns (status, out pointer, state); a nonzero status signals failure. -/
def posix_memalign (m : Mem) (align size : Nat) : Nat × Nat × Mem :=
  if m.exhausted then (12, 0, m)
  else
    let p := freshBase m align
    (0, p, { m with blocks := m.blocks ++ [⟨p, List.replicate size 0⟩] })

/-- Model of `libc::free`: `free(NULL)` is a no-op; freeing a live block's
base removes the block; anything else is undefined behavior. -/
def libc_free (m : Mem) (p : Nat) : Mem :=
  if p = 0 then m
  else if m.blocks.any (fun b => decide (b.base = p)) then
    { m with blocks := m.blocks.filter (fun b => decide (b.base ≠ p)) }
  else
    { m with ub := true }

/-- Model of `libc::realloc`: null on exhaustion (original block left
intact); resizing a live block keeps its base and the overlapping bytes;
any other pointer is undefined behavior. -/
def libc_realloc (m : Mem) (p size : Nat) : Nat × Mem :=
  if m.exhausted then (0, m)
  else if m.blocks.any (fun b => decide (b.base = p)) then
    (p, { m with blocks := m.blocks.map (fun c =>
      if decide (c.base = p) then
        ⟨p, c.data.take size ++ List.replicate (size - c.data.length) 0⟩
      else c) })
  else
    (0, { m with ub := true })

/-- The bytes at `[src, src + n)` when some live block covers that range
(reads of unmapped memory return zeros; the write side flags the UB). -/
def readBytes (m : Mem) (src n : Nat) : List Nat :=
  match m.blocks.find? (fun b => decide (b.base ≤ src) && decide (src + n ≤ blockEnd b)) with
  | some b => (b.data.drop (src - b.base)).take n
  | none => List.replicate n 0

/-- Overwrite `data` at offset `off` with `bytes`. -/
def writeSlice (data : List Nat) (off : Nat) (bytes : List Nat) : List Nat :=
  data.take off ++ bytes ++ data.drop (off + bytes.length)

/-- Model of `ptr::copy_memory(dst, src, n)`: copies `n` bytes from `src`
to `dst`; a write of `n > 0` bytes to a range no live block covers (in
particular through a null `dst`) is undefined behavior. -/
def copy_memory (m : Mem) (dst src n : Nat) : Mem :=
  if n = 0 then m
  else
    let bytes := readBytes m src n
    match m.blocks.find? (fun b => decide (b.base ≤ dst) && decide (dst + n ≤ blockEnd b)) with
    | some _ =>
      { m with blocks := m.blocks.map (fun b =>
          if decide (b.base ≤ dst) && decide (dst + n ≤ blockEnd b) then
            ⟨b.base, writeSlice b.data (dst - b.base) bytes⟩
          else b) }
    | none => { m with ub := true }

/-- unix `imp::allocate` (heap.rs lines 269-283). -/
def unix_allocate (ma : Nat) (m : Mem) (size align : Nat) : Nat × Mem :=
  if align ≤ ma then
    libc_malloc ma m size
  else
    let r := posix_memalign m align size
    if r.1 ≠ 0 then (0, r.2.2) else (r.2.1, r.2.2)

/-- unix `imp::deallocate` (heap.rs lines 304-306): `libc::free(ptr)`. -/
def unix_deallocate (m : Mem) (ptr _old_size _align : Nat) : Mem :=
  libc_free m ptr

/-- unix `imp::reallocate` (heap.rs lines 286-295): `libc::realloc` on the
natural-alignment fast path; for larger alignment, allocate fresh, copy
`min(size, old_size)` bytes, free the old block, return the new pointer —
transcribed exactly, with no check of the fresh pointer. -/
def unix_reallocate (ma : Nat) (m : Mem) (ptr old_size size align : Nat) : Nat × Mem :=
  if align ≤ ma then
    libc_realloc m ptr size
  else
    let a := unix_allocate ma m size align
    let m2 := copy_memory a.2 a.1 ptr (min size old_size)
    let m3 := unix_deallocate m2 ptr old_size align
    (a.1, m3)

/-- unix `imp::reallocate_inplace` (heap.rs lines 298-301): ignores every
argument but `old_size` and touches no platform state. -/
def unix_reallocate_inplace (_ptr old_size _size _align : Nat) (m : Mem) : Nat × Mem :=
  (old_size, m)

/-- unix `imp::usable_size` (heap.rs lines 309-311): the requested size,
verbatim; a pure function taking no allocator state. -/
def unix_usable_size (size _align : Nat) : Nat := size

/-! ### The windows direct-platform backend (heap.rs lines 316-368)

Modelled over abstract platform primitives so that the theorems quantify
over every platform behavior; a logging instantiation records which
primitive each operation invokes. -/

/-- A call to one of the windows platform allocation primitives. -/
inductive WinCall where
  | malloc (size : Nat)
  | aligned_malloc (size align : Nat)
  | realloc (ptr size : Nat)
  | aligned_realloc (ptr size align : Nat)
  | free (ptr : Nat)
  | aligned_free (ptr : Nat)
deriving DecidableEq

/-- The windows platform primitives (`libc::malloc`, `_aligned_malloc`,
`libc::realloc`, `_aligned_realloc`, `libc::free`, `_aligned_free`),
abstract over the platform state `σ`. -/
structure WinPrims (σ : Type) where
  malloc : Nat → σ → Nat × σ
  aligned_malloc : Nat → Nat → σ → Nat × σ
  realloc : Nat → Nat → σ → Nat × σ
  aligned_realloc : Nat → Nat → Nat → σ → Nat × σ
  free : Nat → σ → σ
  aligned_free : Nat → σ → σ

/-- windows `imp::allocate` (heap.rs lines 330-336): `malloc` at natural
alignment, `_aligned_malloc` above it. -/
def windows_allocate {σ : Type} (P : WinPrims σ) (ma size align : Nat) (s : σ) : Nat × σ :=
  if align ≤ ma then P.malloc size s else P.aligned_malloc size align s

/-- windows `imp::reallocate` (heap.rs lines 339-345). -/
def windows_reallocate {σ : Type} (P : WinPrims σ) (ma ptr _old_size size align : Nat)
    (s : σ) : Nat × σ :=
  if align ≤ ma then P.realloc ptr size s else P.aligned_realloc ptr size align s

/-- windows `imp::reallocate_inplace` (heap.rs lines 348-351): ignores
every argument but `old_size` and calls no platform primitive. -/
def windows_reallocate_inplace {σ : Type} (_ptr old_size _size _align : Nat) (s : σ) :
    Nat × σ :=
  (old_size, s)

/-- windows `imp::deallocate` (heap.rs lines 354-360): `free` at natural
alignment, `_aligned_free` above it. -/
def windows_deallocate {σ : Type} (P : WinPrims σ) (ma ptr _old_size align : Nat) (s : σ) : σ :=
  if align ≤ ma then P.free ptr s else P.aligned_free ptr s

/-- windows `imp::usable_size` (heap.rs lines 363-365): the requested
size, verbatim; a pure function taking no allocator state. -/
def windows_usable_size (size _align : Nat) : Nat := size

/-- Logging instantiation of the windows primitives: the state is the
list of primitive calls made, in order. -/
def winLogPrims : WinPrims (List WinCall) where
  malloc := fun size l => (2, l ++ [WinCall.malloc size])
  aligned_malloc := fun size align l => (2, l ++ [WinCall.aligned_malloc size align])
  realloc := fun ptr size l => (ptr, l ++ [WinCall.realloc ptr size])
  aligned_realloc := fun ptr size align l => (ptr, l ++ [WinCall.aligned_realloc ptr size align])
  free := fun ptr l => l ++ [WinCall.free ptr]
  aligned_free := fun ptr l => l ++ [WinCall.aligned_free ptr]

/-- Whether a primitive call is `_aligned_free`. -/
def isAlignedFree : WinCall → Bool
  | WinCall.aligned_free _ => true
  | _ => false

/-- Whether a primitive call is `_aligned_malloc`. -/
def isAlignedMalloc : WinCall → Bool
  | WinCall.aligned_malloc _ _ => true
  | _ => false

/-! ### Concrete backends used as test instances -/

/-- A backend over `Unit` whose `allocate` always fails (returns null). -/
def nullBackend : Backend Unit where
  allocate := fun _ _ _ => (0, ())
  reallocate := fun _ _ _ _ _ => (0, ())
  reallocate_inplace := fun _ old_size _ _ _ => (old_size, ())
  deallocate := fun _ _ _ _ => ()
  usable_size := fun size _ => size

/-- A backend whose state counts how many backend calls were made. -/
def countingBackend : Backend Nat where
  allocate := fun _ _ n => (2, n + 1)
  reallocate := fun _ _ _ _ n => (2, n + 1)
  reallocate_inplace := fun _ old_size _ _ n => (old_size, n + 1)
  deallocate := fun _ _ _ n => n + 1
  usable_size := fun size _ => size

/-- Initial platform state for the reallocate-failure scenario: one live
4-byte block at base 64, platform exhausted (every fresh allocation
fails), no undefined behavior yet. -/
def c3Mem : Mem := { blocks := [⟨64, [1, 2, 3, 4]⟩], exhausted := true, ub := false }

/-! ### Helper lemmas -/

/-- `trailingZerosAux` on a power of two below the fuel bound counts the
exponent. -/
theorem trailingZerosAux_two_pow (k : Nat) :
    ∀ fuel : Nat, k < fuel → trailingZerosAux fuel (2 ^ k) = k := by
  induction k with
  | zero =>
    intro fuel h
    cases fuel with
    | zero => omega
    | succ f => simp [trailingZerosAux]
  | succ k ih =>
    intro fuel h
    cases fuel with
    | zero => omega
    | succ f =>
      have e : 2 ^ (k + 1) = 2 ^ k * 2 := Nat.pow_succ 2 k
      have h2 : 2 ^ (k + 1) % 2 = 0 := by omega
      have h3 : 2 ^ (k + 1) / 2 = 2 ^ k := by omega
      simp [trailingZerosAux, h2, h3, ih f (by omega)]

/-- `trailing_zeros` of a 64-bit power of two is the exponent. -/
theorem trailing_zeros_two_pow (k : Nat) (h : k < 64) : trailing_zeros (2 ^ k) = k :=
  trailingZerosAux_two_pow k 64 h

/-- `Nat.log2` of a power of two is the exponent. -/
theorem log2_two_pow (k : Nat) : Nat.log2 (2 ^ k) = k := by
  rw [Nat.log2_eq_log_two]
  exact Nat.log_pow (by omega) k

/-! ### Claim theorems -/

/-- C1: for every backend and every alignment, a zero-size request through
`exchange_malloc` returns the Empty Sentinel (which is non-null) and
leaves the backend state untouched — no backend `allocate` call is made. -/
theorem C1_exchange_malloc_zero {σ : Type} (b : Backend σ) (align : Nat) (s : σ) :
    exchange_malloc b 0 align s = (some EMPTY, s) ∧ EMPTY ≠ 0 := by
  refine ⟨rfl, by decide⟩

/-- C2: for every backend, size > 0 and alignment, if the backend
`allocate` returns null then `exchange_malloc` invokes the out-of-memory
handler (result `none`) instead of returning null; and `exchange_malloc`
never returns the null address. -/
theorem C2_exchange_malloc_oom {σ : Type} (b : Backend σ) (size align : Nat) (s : σ)
    (hsz : 0 < size) :
    ((b.allocate size align s).1 = 0 → (exchange_malloc b size align s).1 = none) ∧
    (exchange_malloc b size align s).1 ≠ some 0 := by
  have h0 : ¬ size = 0 := by omega
  constructor
  · intro h
    simp [exchange_malloc, allocate, h0, h]
  · by_cases h : (b.allocate size align s).1 = 0 <;>
      simp [exchange_malloc, allocate, h0, h]

/-- Witness for C2 at the concrete input: the always-failing backend,
size 1, alignment 8. -/
theorem C2_exchange_malloc_oom_witness :
    0 < 1 ∧
    (((nullBackend.allocate 1 8 ()).1 = 0 → (exchange_malloc nullBackend 1 8 ()).1 = none) ∧
     (exchange_malloc nullBackend 1 8 ()).1 ≠ some 0) :=
  ⟨by decide, C2_exchange_malloc_oom nullBackend 1 8 () (by decide)⟩

/-- C4 counterexample: `exchange_free` / `deallocate` applied to the Empty
Sentinel under the call-counting backend makes exactly one backend
deallocate call (the count goes from 0 to 1), so "no backend call occurs"
is false of the code: there is no sentinel check. -/
theorem C4_sentinel_free_counterexample :
    exchange_free countingBackend EMPTY 0 8 0 = 1 ∧
    deallocate countingBackend EMPTY 0 8 0 = 1 := by
  refine ⟨rfl, rfl⟩

/-- C4 amended: for every backend, old size and alignment, `deallocate`
and `exchange_free` on a handle equal to the Empty Sentinel forward the
call unchanged to the backend `deallocate` — exactly one backend call
occurs; the layer performs no sentinel check. -/
theorem C4_sentinel_free_forwards {σ : Type} (b : Backend σ) (old_size align : Nat) (s : σ) :
    exchange_free b EMPTY old_size align s = b.deallocate EMPTY old_size align s ∧
    deallocate b EMPTY old_size align s = b.deallocate EMPTY old_size align s ∧
    exchange_free countingBackend EMPTY old_size align 0 = 1 :=
  ⟨rfl, rfl, rfl⟩

/-- C10: the Empty Sentinel is the fixed address 1; the zero-size path of
`exchange_malloc` returns it for every backend, and for every alignment
strictly greater than 1 the sentinel is not a multiple of that alignment
(it does not satisfy the requested alignment). -/
theorem C10_sentinel_misaligned {σ : Type} (b : Backend σ) (align : Nat) (s : σ)
    (h : 1 < align) :
    EMPTY = 1 ∧ (exchange_malloc b 0 align s).1 = some EMPTY ∧ EMPTY % align ≠ 0 := by
  refine ⟨rfl, rfl, ?_⟩
  have : EMPTY % align = 1 := Nat.mod_eq_of_lt h
  omega

/-- Witness for C10 at the concrete input: alignment 8 over the
always-failing backend. -/
theorem C10_sentinel_misaligned_witness :
    1 < 8 ∧
    (EMPTY = 1 ∧ (exchange_malloc nullBackend 0 8 ()).1 = some EMPTY ∧ EMPTY % 8 ≠ 0) :=
  ⟨by decide, C10_sentinel_misaligned nullBackend 8 () (by decide)⟩

/-- C3: demonstration of the failure.  Platform: one live 4-byte block at
base 64, exhaustion on (every fresh allocation fails).  Calling the unix
backend `reallocate` with `old_size = 4`, `size = 8`, `align = 32`
(strictly above `MIN_ALIGN = 16`, the emulated path): `allocate` returns
null, yet the code copies 4 bytes through the null pointer (undefined
behavior) and frees the original block.  The call returns null with the
original allocation destroyed — not a no-op, contradicting the claim and
the function's own documented contract (heap.rs line 29). -/
theorem C3_unix_reallocate_failure_destroys_original :
    (unix_reallocate MIN_ALIGN_x86 c3Mem 64 4 8 32).1 = 0 ∧
    (unix_reallocate MIN_ALIGN_x86 c3Mem 64 4 8 32).2.blocks = [] ∧
    (unix_reallocate MIN_ALIGN_x86 c3Mem 64 4 8 32).2.ub = true := by
  decide

/-- C5: for every architecture's `MIN_ALIGN` and every power-of-two
alignment `2 ^ k` (a 64-bit machine word), `align_to_flags` returns 0 iff
the alignment is at most `MIN_ALIGN`; for alignment strictly greater it
returns the trailing-zero count `k`, which equals the log2 of the
alignment. -/
theorem C5_align_to_flags_spec (ma k : Nat)
    (hma : ma = MIN_ALIGN_arm ∨ ma = MIN_ALIGN_x86) (hk : k < 64) :
    (align_to_flags ma (2 ^ k) = 0 ↔ 2 ^ k ≤ ma) ∧
    (ma < 2 ^ k →
      align_to_flags ma (2 ^ k) = k ∧ align_to_flags ma (2 ^ k) = Nat.log2 (2 ^ k)) := by
  have htz : trailing_zeros (2 ^ k) = k := trailing_zeros_two_pow k hk
  by_cases hle : 2 ^ k ≤ ma
  · constructor
    · constructor
      · intro _
        exact hle
      · intro _
        simp [align_to_flags, hle]
    · intro hlt
      omega
  · have hval : align_to_flags ma (2 ^ k) = k := by
      unfold align_to_flags mallocx_align
      rw [if_neg hle]
      exact htz
    have hk0 : k ≠ 0 := by
      intro h0
      subst h0
      have h1 : (8 : Nat) ≤ ma := by
        rcases hma with h | h <;> simp [h, MIN_ALIGN_arm, MIN_ALIGN_x86]
      simp at hle
      omega
    constructor
    · rw [hval]
      constructor
      · intro h
        exact absurd h hk0
      · intro h
        exact absurd h hle
    · intro _
      exact ⟨hval, hval.trans (log2_two_pow k).symm⟩

/-- Witness for C5 at the concrete input: `MIN_ALIGN = 16` (x86) and
alignment `2 ^ 5 = 32`. -/
theorem C5_align_to_flags_spec_witness :
    (16 = MIN_ALIGN_arm ∨ 16 = MIN_ALIGN_x86) ∧ 5 < 64 ∧
    ((align_to_flags 16 (2 ^ 5) = 0 ↔ 2 ^ 5 ≤ 16) ∧
     (16 < 2 ^ 5 →
       align_to_flags 16 (2 ^ 5) = 5 ∧ align_to_flags 16 (2 ^ 5) = Nat.log2 (2 ^ 5))) :=
  ⟨Or.inr rfl, by decide, C5_align_to_flags_spec 16 5 (Or.inr rfl) (by decide)⟩

/-- C6: under both direct platform backends, `reallocate_inplace` returns
`old_size` unchanged for every input and leaves the platform state
untouched (it never moves or invalidates the handle); in particular,
called with `old_size = size` right after an allocation it returns a
value at least `size`. -/
theorem C6_inplace_always_noop {σ : Type} (m : Mem) (s : σ) (ptr old_size size align : Nat) :
    unix_reallocate_inplace ptr old_size size align m = (old_size, m) ∧
    windows_reallocate_inplace ptr old_size size align s = (old_size, s) ∧
    size ≤ (unix_reallocate_inplace ptr size size align m).1 ∧
    size ≤ (windows_reallocate_inplace ptr size size align s).1 :=
  ⟨rfl, rfl, Nat.le_refl size, Nat.le_refl size⟩

/-- C7: the `external_funcs` backend module does not forward all five
core operations: its `fn` items (transcribed in `extfuncsItems`) contain
no `reallocate` at all, while `reallocate_inplace` is defined twice — so
the façade's `reallocate` (heap.rs line 40) has no `imp::reallocate` to
call under this backend. -/
theorem C7_extfuncs_missing_reallocate :
    OpName.reallocate ∉ extfuncsItems ∧
    extfuncsItems.count OpName.reallocate_inplace = 2 ∧
    extfuncsItems.length = 5 := by
  decide

/-- C8: under both direct platform backends, `usable_size` returns exactly
the requested size for every size and alignment — hence it is at least the
requested size, and it is a pure function of its two arguments alone
(neither definition takes any allocator state). -/
theorem C8_usable_size_is_size (size align : Nat) :
    unix_usable_size size align = size ∧
    windows_usable_size size align = size ∧
    size ≤ unix_usable_size size align ∧
    size ≤ windows_usable_size size align :=
  ⟨rfl, rfl, Nat.le_refl size, Nat.le_refl size⟩

/-- C9: in the windows backend, `deallocate` invokes `_aligned_free` iff
the alignment is strictly above `MIN_ALIGN`, which is exactly the
condition under which `allocate` invokes `_aligned_malloc`; so a handle
deallocated with the same alignment it was allocated with is released
through the same allocator family that created it. -/
theorem C9_windows_same_family (ma size align ptr old_size : Nat) :
    ((windows_deallocate winLogPrims ma ptr old_size align []).any isAlignedFree = true ↔
      ma < align) ∧
    (((windows_allocate winLogPrims ma size align []).2.any isAlignedMalloc = true) ↔
      ma < align) ∧
    ((windows_deallocate winLogPrims ma ptr old_size align []).any isAlignedFree =
      (windows_allocate winLogPrims ma size align []).2.any isAlignedMalloc) := by
  by_cases h : align ≤ ma <;>
    simp [windows_deallocate, windows_allocate, winLogPrims, isAlignedFree,
      isAlignedMalloc, h]
  all_goals omega
